import Mathlib

/- Shallow embedding of src/app.py: a habit/spiritual-practice tracker storing a
JSON document of logged entries and a JSON configuration document in an
encrypted cookie store, with a pandas-based aggregation page.

Modelling conventions:
- json.dumps / json.loads round-trip exactly on the documents this app writes,
  so a cookie holding the string dumps(j) is modelled as holding the value j
  itself (CookieVal.valid j); a cookie string that is not valid JSON is
  modelled by CookieVal.malformed, on which json.loads raises (parseError).
- Python dicts preserve insertion order, so JSON objects are ordered
  association lists.
- pandas compares strings by code point, as does the ltChars comparison below.
-/

/-- JSON values (the fragment this app serializes): strings, integers,
booleans, arrays and insertion-ordered objects. -/
inductive Json where
  | str : String → Json
  | num : Int → Json
  | bool : Bool → Json
  | arr : List Json → Json
  | obj : List (String × Json) → Json

/-- Python dict lookup d.get(key) on an insertion-ordered association list. -/
def assocGet {α : Type} : List (String × α) → String → Option α
  | [], _ => none
  | (k, v) :: rest, key => if k = key then some v else assocGet rest key

/-- Python dict assignment d[key] = v for a key already present: replaces the
value in place, preserving key order and all other keys. -/
def assocSet {α : Type} : List (String × α) → String → α → List (String × α)
  | [], _, _ => []
  | (k, v) :: rest, key, w => if k = key then (k, w) :: rest else (k, v) :: assocSet rest key w

/-- Json.get j key models j.get(key) on a parsed JSON object. -/
def Json.get : Json → String → Option Json
  | .obj fields, key => assocGet fields key
  | _, _ => none

/-- Errors raised by the Python code paths modelled here: json.loads on a
malformed string (parseError), d[k] on a missing key (keyError), and
list/dict operations on a value of the wrong shape (typeError). -/
inductive JsonError where
  | parseError
  | keyError
  | typeError
deriving DecidableEq

/-- One cookie value: either the JSON document it decodes to, or a string that
is not valid JSON. -/
inductive CookieVal where
  | valid : Json → CookieVal
  | malformed : CookieVal

/-- The encrypted cookie store with its two fixed keys, TRACKING_KEY =
"tracking_data" and CONFIG_KEY = "config" (src/app.py lines 20-21). -/
structure Store where
  tracking : Option CookieVal
  config : Option CookieVal

/-- BIBLE_VERSES (src/app.py lines 24-32): the dict literal mapping each of the
seven categories to a scripture reference, in source order. -/
def BIBLE_VERSES : List (String × String) :=
  [("Love & Service", "Matthew 25:35-40"),
   ("Evangelism & Discipleship", "Matthew 28:19-20"),
   ("Faithfulness in Trials", "James 1:12"),
   ("Generosity & Giving", "2 Corinthians 9:7"),
   ("Holiness & Obedience", "1 Peter 1:15-16"),
   ("Use of Talents for God's Glory", "Matthew 25:14-30"),
   ("Heart & Motivation Check", "Matthew 6:1-4")]

/-- CATEGORIES = list(BIBLE_VERSES.keys()) (src/app.py line 35). -/
def CATEGORIES : List String := BIBLE_VERSES.map Prod.fst

/-- BIBLE_VERSES.get(category, "") (src/app.py line 128): dict lookup with the
empty string as default for unknown keys. -/
def bible_verse_of (category : String) : String :=
  (assocGet BIBLE_VERSES category).getD ""

/-- The five fields of the new_entry dict built in render_log_entry
(src/app.py lines 146-152). metric comes from st.number_input with
min_value=0, step=1, hence a non-negative integer. -/
structure Entry where
  date : String
  category : String
  metric : Nat
  reflection : String
  bible_verse : String

/-- The new_entry dict literal of render_log_entry (lines 146-152), in source
field order. -/
def entryToJson (e : Entry) : Json :=
  .obj [("date", .str e.date),
        ("category", .str e.category),
        ("metric", .num (e.metric : Int)),
        ("reflection", .str e.reflection),
        ("bible_verse", .str e.bible_verse)]

/-- The entry assembled by the Log Entry form (lines 123-152): the category is
chosen by st.selectbox from CATEGORIES (an index into that list), the metric
by st.number_input(min_value=0, step=1), and bible_verse is the
BIBLE_VERSES.get(category, "") lookup of line 128. -/
def mk_new_entry (i : Fin CATEGORIES.length) (entry_date : String) (value : Nat)
    (reflection : String) : Entry :=
  { date := entry_date,
    category := CATEGORIES.get i,
    metric := value,
    reflection := reflection,
    bible_verse := bible_verse_of (CATEGORIES.get i) }

/-- load_data (src/app.py lines 78-83): cookies.get(TRACKING_KEY); None yields
the dict literal with an empty entries list, otherwise json.loads (which
raises on a malformed cookie string). -/
def load_data (s : Store) : Except JsonError Json :=
  match s.tracking with
  | none => .ok (.obj [("entries", .arr [])])
  | some .malformed => .error .parseError
  | some (.valid j) => .ok j

/-- save_data (lines 85-88): cookies[TRACKING_KEY] = json.dumps(data); cookies.save(). -/
def save_data (s : Store) (data : Json) : Store :=
  { s with tracking := some (.valid data) }

/-- load_config (lines 90-95): cookies.get(CONFIG_KEY); None yields the empty
dict, otherwise json.loads (which raises on a malformed cookie string).
There is no exception handler in this function or at its call sites. -/
def load_config (s : Store) : Except JsonError Json :=
  match s.config with
  | none => .ok (.obj [])
  | some .malformed => .error .parseError
  | some (.valid j) => .ok j

/-- save_config (lines 97-100). -/
def save_config (s : Store) (config : Json) : Store :=
  { s with config := some (.valid config) }

/-- load_config together with the cookie store it leaves behind: the body of
load_config (lines 90-95) contains no cookie assignment and no cookies.save(),
so the store is returned unchanged. -/
def load_config_st (s : Store) : Except JsonError (Json × Store) :=
  (load_config s).map (fun c => (c, s))

/-- The hardcoded fallback configuration dict (src/app.py lines 60-74). -/
def fallback_config : Json :=
  .obj [("goals", .obj
          [("Love & Service", .str "Serve at least 5 people weekly"),
           ("Evangelism & Discipleship", .str "Share the Gospel or mentor 3 people weekly"),
           ("Faithfulness in Trials", .str "Journal one instance per trial of trust in God"),
           ("Generosity & Giving", .str "Give 10% of income/time to ministry"),
           ("Holiness & Obedience", .str "Engage in daily Bible study and prayer"),
           ("Use of Talents for God's Glory", .str "Identify and use your talents weekly for ministry"),
           ("Heart & Motivation Check", .str "Complete a monthly questionnaire on your intentions")]),
        ("notification_settings", .obj
          [("daily_reminder_time", .str "08:00"),
           ("enable_notifications", .bool true)])]

/-- init_data_cookies (src/app.py lines 48-76). config_file is the outcome of
load_config_file() (lines 40-43), which reads config.json from disk: .ok when
the file exists and parses, .error when open or json.load raises. If the
tracking cookie is absent it is initialized to an empty entries document; if
the config cookie is absent it is initialized from config.json when available
and from the hardcoded fallback otherwise. -/
def init_data_cookies (config_file : Except Unit Json) (s : Store) : Store :=
  let s1 :=
    match s.tracking with
    | none => { s with tracking := some (.valid (.obj [("entries", .arr [])])) }
    | some _ => s
  match s1.config with
  | none =>
    match config_file with
    | .ok cfg => { s1 with config := some (.valid cfg) }
    | .error _ => { s1 with config := some (.valid fallback_config) }
  | some _ => s1

/-- data.get("entries", []), the way every page reads the entry list from the
parsed tracking document (src/app.py lines 110, 163, 202). -/
def get_entries (data : Json) : Json :=
  (data.get "entries").getD (.arr [])

/-- Loading the tracking document and reading its entry list (loadAll). -/
def load_entries (s : Store) : Except JsonError Json :=
  (load_data s).map get_entries

/-- The append performed on form submission (src/app.py lines 153-156):
data = load_data(); data["entries"].append(new_entry); save_data(data).
data["entries"] raises KeyError when the key is absent and the subscript or
.append raises TypeError/AttributeError when a value has the wrong shape;
in-place .append keeps every other key and the key order of data intact. -/
def append_entry (s : Store) (e : Entry) : Except JsonError Store :=
  match load_data s with
  | .error err => .error err
  | .ok data =>
    match data with
    | .obj fields =>
      match assocGet fields "entries" with
      | some (.arr entries) =>
          .ok (save_data s (.obj (assocSet fields "entries" (.arr (entries ++ [entryToJson e])))))
      | some _ => .error .typeError
      | none => .error .keyError
    | _ => .error .typeError

/-- A sequence of form submissions, each performing the full
read-modify-write cycle of lines 153-156. -/
def appendAll (s : Store) : List Entry → Except JsonError Store
  | [] => .ok s
  | e :: es =>
    match append_entry s e with
    | .error err => .error err
    | .ok s2 => appendAll s2 es

/-- Code-point comparison of character lists: the string order used by
Python and pandas when sorting the date strings and period keys. -/
def ltChars : List Char → List Char → Bool
  | [], [] => false
  | [], _ :: _ => true
  | _ :: _, [] => false
  | a :: as, b :: bs =>
    if a.toNat < b.toNat then true
    else if b.toNat < a.toNat then false
    else ltChars as bs

/-- String less-or-equal by code points. -/
def strLeB (a b : String) : Bool := ! ltChars b.data a.data

/-- Propositional form of strLeB, for the sorting lemmas. -/
def strLeP (a b : String) : Prop := strLeB a b = true

instance decStrLeP : DecidableRel strLeP := fun a b => instDecidableEqBool (strLeB a b) true

/-- Lexicographic less-or-equal on (Period, category) pairs: how pandas orders
a two-column group key. -/
def pairLeB (a b : String × String) : Bool :=
  if ltChars a.1.data b.1.data then true
  else if ltChars b.1.data a.1.data then false
  else strLeB a.2 b.2

/-- Propositional form of pairLeB. -/
def pairLeP (a b : String × String) : Prop := pairLeB a b = true

instance decPairLeP : DecidableRel pairLeP := fun a b => instDecidableEqBool (pairLeB a b) true

/-- Boolean equality of strings (Python ==). -/
def eqbStr (a b : String) : Bool := a == b

/-- Boolean equality of (Period, category) pairs. -/
def eqbPair (a b : String × String) : Bool := (a.1 == b.1) && (a.2 == b.2)

/-- The distinct keys of a column in order of first occurrence. -/
def keysFirstOcc {α : Type} (eqb : α → α → Bool) (seen : List α) : List α → List α
  | [] => []
  | a :: l =>
    if seen.any (eqb a) then keysFirstOcc eqb seen l
    else a :: keysFirstOcc eqb (a :: seen) l

/-- Sum of the metric column over the rows carrying a given key. -/
def sumByKey {α : Type} (eqb : α → α → Bool) (rows : List (α × Nat)) (k : α) : Nat :=
  rows.foldl (fun acc r => if eqb r.1 k then acc + r.2 else acc) 0

/-- pandas df.groupby(key)['metric'].sum().reset_index() with the default
sort=True: one row per distinct key with the summed metric, rows ordered by
ascending group key (insertionSort produces that canonical sorted order of
the distinct keys). -/
def groupbySum {α : Type} (eqb : α → α → Bool) (leP : α → α → Prop) [DecidableRel leP]
    (rows : List (α × Nat)) : List (α × Nat) :=
  (List.insertionSort leP (keysFirstOcc eqb [] (rows.map Prod.fst))).map
    (fun k => (k, sumByKey eqb rows k))

/-- A calendar date as parsed by pd.to_datetime from a "%Y-%m-%d" string. -/
structure Date where
  year : Nat
  month : Nat
  day : Nat

/-- Decimal digit value of a character, when it is a digit. -/
def digitVal (c : Char) : Option Nat :=
  if 48 ≤ c.toNat ∧ c.toNat ≤ 57 then some (c.toNat - 48) else none

/-- Accumulate decimal digits into a number; none on a non-digit. -/
def natOfCharsAux : List Char → Nat → Option Nat
  | [], acc => some acc
  | c :: cs, acc =>
    match digitVal c with
    | some d => natOfCharsAux cs (acc * 10 + d)
    | none => none

/-- Parse a non-empty all-digit character list. -/
def natOfChars (cs : List Char) : Option Nat :=
  match cs with
  | [] => none
  | _ => natOfCharsAux cs 0

/-- Split a character list at a separator character. -/
def splitCharAux (sep : Char) : List Char → List Char → List (List Char)
  | [], acc => [acc.reverse]
  | c :: cs, acc =>
    if c.toNat = sep.toNat then acc.reverse :: splitCharAux sep cs []
    else splitCharAux sep cs (c :: acc)

/-- pd.to_datetime applied to one stored date string (src/app.py line 211):
parses the "%Y-%m-%d" shape the app writes (entry_date.strftime("%Y-%m-%d"),
line 147); anything else raises. -/
def parse_date (s : String) : Option Date :=
  match splitCharAux '-' s.toList [] with
  | [y, m, d] =>
    match natOfChars y, natOfChars m, natOfChars d with
    | some yn, some mn, some dn =>
      if 1 ≤ mn ∧ mn ≤ 12 ∧ 1 ≤ dn ∧ dn ≤ 31 then some ⟨yn, mn, dn⟩ else none
    | _, _, _ => none
  | _ => none

/-- strftime zero-padding to two digits (%m, %U). -/
def pad2 (n : Nat) : String := if n < 10 then "0" ++ toString n else toString n

/-- strftime %Y: the year zero-padded to four digits. -/
def pad4 (n : Nat) : String :=
  if n < 10 then "000" ++ toString n
  else if n < 100 then "00" ++ toString n
  else if n < 1000 then "0" ++ toString n
  else toString n

/-- Gregorian leap-year rule. -/
def isLeap (y : Nat) : Bool := (y % 4 == 0 && y % 100 != 0) || y % 400 == 0

/-- Days in the months strictly before month m (1-based). -/
def daysBeforeMonth (leap : Bool) (m : Nat) : Nat :=
  let base := [0, 31, 59, 90, 120, 151, 181, 212, 243, 273, 304, 334]
  let v := base.getD (m - 1) 0
  if leap && decide (2 < m) then v + 1 else v

/-- Zero-based day of the year (C tm_yday). -/
def dayOfYear0 (d : Date) : Nat :=
  daysBeforeMonth (isLeap d.year) d.month + d.day - 1

/-- Day of the week with Sunday = 0 (C tm_wday), by Sakamoto's method. -/
def dayOfWeekSun0 (d : Date) : Nat :=
  let t := [0, 3, 2, 5, 0, 3, 5, 1, 4, 6, 2, 4]
  let y := if d.month < 3 then d.year - 1 else d.year
  (y + y / 4 - y / 100 + y / 400 + t.getD (d.month - 1) 0 + d.day) % 7

/-- strftime %U: week of the year with Sunday as first day; all days before
the first Sunday of the year are in week 0. -/
def weekOfYearU (d : Date) : Nat := (dayOfYear0 d + 7 - dayOfWeekSun0 d) / 7

/-- The three aggregation choices of the Reports page (line 214). -/
inductive Granularity where
  | weekly
  | monthly
  | yearly

/-- The Period column value (src/app.py lines 218-223): date.strftime of
'%Y-W%U', '%Y-%m' or '%Y' respectively. -/
def periodOf (g : Granularity) (d : Date) : String :=
  match g with
  | .weekly => pad4 d.year ++ "-W" ++ pad2 (weekOfYearU d)
  | .monthly => pad4 d.year ++ "-" ++ pad2 d.month
  | .yearly => pad4 d.year

/-- The (Period, category, metric) rows of the reports DataFrame after the
to_datetime conversion (line 211) and Period derivation (lines 218-223);
to_datetime raises on any unparseable date string. -/
def periodRows (g : Granularity) : List Entry → Except JsonError (List (String × String × Nat))
  | [] => .ok []
  | e :: es =>
    match parse_date e.date with
    | none => .error .parseError
    | some d =>
      match periodRows g es with
      | .error err => .error err
      | .ok rest => .ok ((periodOf g d, e.category, e.metric) :: rest)

/-- render_reports with filter_category == "All" (src/app.py lines 197-243):
early informational return when there are no entries, Period derivation, no
category filter, then df.groupby(['Period', 'category'])['metric'].sum().
none models the "no data" informational state. -/
def aggregate_all (entries : List Entry) (g : Granularity) :
    Except JsonError (Option (List ((String × String) × Nat))) :=
  match entries with
  | [] => .ok none
  | _ =>
    match periodRows g entries with
    | .error err => .error err
    | .ok rows =>
      .ok (some (groupbySum eqbPair pairLeP (rows.map (fun r => ((r.1, r.2.1), r.2.2)))))

/-- render_reports with a specific filter_category (lines 197-232, 244-252):
early return when there are no entries, Period derivation, the category
filter df[df['category'] == filter_category], the df.empty informational
return, then df.groupby('Period')['metric'].sum(). -/
def aggregate_filtered (entries : List Entry) (g : Granularity) (c : String) :
    Except JsonError (Option (List (String × Nat))) :=
  match entries with
  | [] => .ok none
  | _ =>
    match periodRows g entries with
    | .error err => .error err
    | .ok rows =>
      match rows.filter (fun r => r.2.1 == c) with
      | [] => .ok none
      | filtered => .ok (some (groupbySum eqbStr strLeP (filtered.map (fun r => (r.1, r.2.2)))))

/-- The distinct Period values in order of first occurrence in the derived
rows: the output order the specification asserts for the aggregation. -/
def periodsFirstOcc (entries : List Entry) (g : Granularity) :
    Except JsonError (List String) :=
  (periodRows g entries).map (fun rows => keysFirstOcc eqbStr [] (rows.map Prod.fst))

/-- x["date"] of one entry dict, as used by the Dashboard sort key (line 116). -/
def date_key (j : Json) : Option String :=
  match j.get "date" with
  | some (.str d) => some d
  | _ => none

/-- Pair each entry dict with its date sort key; raises when a dict has no
string date. -/
def keyedByDate : List Json → Option (List (String × Json))
  | [] => some []
  | j :: js =>
    match date_key j with
    | none => none
    | some d =>
      match keyedByDate js with
      | none => none
      | some rest => some ((d, j) :: rest)

/-- Descending-by-date order for Python sorted(, reverse=True): a may precede
b when key(b) <= key(a); ties keep original order (stability). -/
def descByDate (a b : String × Json) : Prop := strLeB b.1 a.1 = true

instance decDescByDate : DecidableRel descByDate := fun a b => instDecidableEqBool (strLeB b.1 a.1) true

/-- The Dashboard sort (src/app.py line 116): sorted(entries, key=lambda x:
x["date"], reverse=True) - a stable sort, descending by the date string. -/
def sort_entries_desc (entries : List Json) : Except JsonError (List Json) :=
  match keyedByDate entries with
  | none => .error .keyError
  | some keyed => .ok ((List.insertionSort descByDate keyed).map Prod.snd)

/-- goals lookup in a configuration document: config.get("goals", {}).get(c). -/
def goalsOf (cfg : Json) (c : String) : Option Json :=
  (cfg.get "goals").bind (fun g => g.get c)

/-- notification_settings lookup in a configuration document. -/
def notif_setting (cfg : Json) (k : String) : Option Json :=
  (cfg.get "notification_settings").bind (fun n => n.get k)

/-- Whether a configuration document carries a non-empty goal string for a
category. -/
def goal_nonempty (cfg : Json) (c : String) : Bool :=
  match goalsOf cfg c with
  | some (.str t) => !(t == "")
  | _ => false

/-- Concrete entries of the aggregation example in the specification. -/
def entA1 : Entry := { date := "2024-01-05", category := "A", metric := 3, reflection := "", bible_verse := "" }

def entA2 : Entry := { date := "2024-01-12", category := "A", metric := 2, reflection := "", bible_verse := "" }

def entB1 : Entry := { date := "2024-02-01", category := "B", metric := 4, reflection := "", bible_verse := "" }

/-- Two entries whose periods first appear out of chronological order. -/
def entFeb : Entry := { date := "2024-02-01", category := "A", metric := 1, reflection := "", bible_verse := "" }

def entJan : Entry := { date := "2024-01-01", category := "A", metric := 2, reflection := "", bible_verse := "" }

/-- Concrete entries of the ordering example in the specification. -/
def ent110 : Entry := { date := "2024-01-10", category := "Love & Service", metric := 1, reflection := "", bible_verse := "Matthew 25:35-40" }

def ent305 : Entry := { date := "2024-03-05", category := "Love & Service", metric := 2, reflection := "", bible_verse := "Matthew 25:35-40" }

def ent120 : Entry := { date := "2024-01-20", category := "Love & Service", metric := 3, reflection := "", bible_verse := "Matthew 25:35-40" }

/-- A store as left by init_data_cookies on a first run: empty entries
document, no configuration cookie yet. -/
def store0 : Store :=
  { tracking := some (.valid (.obj [("entries", .arr [])])), config := none }

/-- A concrete entry for the round-trip witness. -/
def entry0 : Entry :=
  { date := "2024-05-01", category := "Love & Service", metric := 2,
    reflection := "helped a neighbor", bible_verse := "Matthew 25:35-40" }

/-- The store after appending entry0 to store0. -/
def store1 : Store :=
  { tracking := some (.valid (.obj [("entries", .arr [entryToJson entry0])])), config := none }

/-- A store whose config cookie holds a string that is not valid JSON. -/
def mStore : Store := { tracking := none, config := some .malformed }

/-- Characters with equal code points are equal. -/
theorem char_toNat_inj (a b : Char) (h : a.toNat = b.toNat) : a = b :=
  Char.eq_of_val_eq (UInt32.eq_of_toBitVec_eq (BitVec.eq_of_toNat_eq h))

/-- The code-point order is asymmetric. -/
theorem ltChars_asymm : ∀ as bs : List Char, ltChars as bs = true → ltChars bs as = false := by
  intro as
  induction as with
  | nil =>
    intro bs h
    cases bs with
    | nil => simp [ltChars] at h
    | cons b bs => simp [ltChars]
  | cons a as ih =>
    intro bs h
    cases bs with
    | nil => simp [ltChars] at h
    | cons b bs =>
      simp only [ltChars] at h ⊢
      rcases Nat.lt_trichotomy a.toNat b.toNat with hlt | heq | hgt
      · simp [hlt, Nat.lt_asymm hlt]
      · simp [heq, Nat.lt_irrefl] at h ⊢
        exact ih bs h
      · simp [hgt, Nat.lt_asymm hgt] at h

/-- The code-point order is irreflexive. -/
theorem ltChars_irrefl (as : List Char) : ltChars as as = false := by
  by_cases h : ltChars as as = true
  · have h2 := ltChars_asymm as as h
    rw [h2] at h
    cases h
  · simpa using h

/-- The code-point order is transitive. -/
theorem ltChars_trans : ∀ as bs cs : List Char,
    ltChars as bs = true → ltChars bs cs = true → ltChars as cs = true := by
  intro as
  induction as with
  | nil =>
    intro bs cs h1 h2
    cases bs with
    | nil => simp [ltChars] at h1
    | cons b bs =>
      cases cs with
      | nil => simp [ltChars] at h2
      | cons c cs => simp [ltChars]
  | cons a as ih =>
    intro bs cs h1 h2
    cases bs with
    | nil => simp [ltChars] at h1
    | cons b bs =>
      cases cs with
      | nil => simp [ltChars] at h2
      | cons c cs =>
        simp only [ltChars] at h1 h2 ⊢
        rcases Nat.lt_trichotomy a.toNat b.toNat with hab | hab | hab
        · rcases Nat.lt_trichotomy b.toNat c.toNat with hbc | hbc | hbc
          · have hac : a.toNat < c.toNat := Nat.lt_trans hab hbc
            simp [hac]
          · have hac : a.toNat < c.toNat := hbc ▸ hab
            simp [hac]
          · simp [Nat.lt_asymm hbc, hbc] at h2
        · rcases Nat.lt_trichotomy b.toNat c.toNat with hbc | hbc | hbc
          · have hac : a.toNat < c.toNat := hab ▸ hbc
            simp [hac]
          · have hac : a.toNat = c.toNat := hab.trans hbc
            simp [hab, Nat.lt_irrefl] at h1
            simp [hbc, Nat.lt_irrefl] at h2
            simp [hac, Nat.lt_irrefl]
            exact ih bs cs h1 h2
          · simp [Nat.lt_asymm hbc, hbc] at h2
        · simp [Nat.lt_asymm hab, hab] at h1

/-- Two lists on which the code-point order holds in neither direction are
equal. -/
theorem ltChars_connex : ∀ as bs : List Char,
    ltChars as bs = false → ltChars bs as = false → as = bs := by
  intro as
  induction as with
  | nil =>
    intro bs h1 h2
    cases bs with
    | nil => rfl
    | cons b bs => simp [ltChars] at h1
  | cons a as ih =>
    intro bs h1 h2
    cases bs with
    | nil => simp [ltChars] at h2
    | cons b bs =>
      simp only [ltChars] at h1 h2
      rcases Nat.lt_trichotomy a.toNat b.toNat with hab | hab | hab
      · simp [hab] at h1
      · simp [hab, Nat.lt_irrefl] at h1 h2
        rw [char_toNat_inj a b hab, ih bs h1 h2]
      · simp [hab, Nat.lt_asymm hab] at h2

/-- Transitivity of the string less-or-equal, at the character-list level. -/
theorem leChars_trans (la lb lc : List Char)
    (h1 : ltChars lb la = false) (h2 : ltChars lc lb = false) :
    ltChars lc la = false := by
  by_cases h4 : ltChars lb lc = true
  · by_cases h5 : ltChars lc la = true
    · have h6 := ltChars_trans lb lc la h4 h5
      rw [h6] at h1
      cases h1
    · simpa using h5
  · have heq : lc = lb := ltChars_connex lc lb h2 (by simpa using h4)
    rw [heq]
    exact h1

instance strLeP_total : IsTotal String strLeP where
  total a b := by
    by_cases h : ltChars b.data a.data = true
    · right
      have h2 := ltChars_asymm _ _ h
      simp [strLeP, strLeB, h2]
    · left
      simp [strLeP, strLeB, Bool.not_eq_true] at h ⊢
      exact h

instance strLeP_trans : IsTrans String strLeP where
  trans a b c hab hbc := by
    simp only [strLeP, strLeB, Bool.not_eq_true'] at hab hbc ⊢
    exact leChars_trans a.data b.data c.data hab hbc

/-- Characterization of the lexicographic pair order. -/
theorem pairLeB_true_iff (a b : String × String) :
    pairLeB a b = true ↔
      (ltChars a.1.data b.1.data = true ∨
       (ltChars a.1.data b.1.data = false ∧ ltChars b.1.data a.1.data = false ∧
        strLeB a.2 b.2 = true)) := by
  unfold pairLeB
  by_cases h1 : ltChars a.1.data b.1.data = true
  · simp [h1]
  · by_cases h2 : ltChars b.1.data a.1.data = true
    · simp [h1, h2]
    · simp only [Bool.not_eq_true] at h1 h2
      simp [h1, h2]

instance pairLeP_total : IsTotal (String × String) pairLeP where
  total a b := by
    simp only [pairLeP]
    rw [pairLeB_true_iff, pairLeB_true_iff]
    by_cases h1 : ltChars a.1.data b.1.data = true
    · left
      exact Or.inl h1
    · by_cases h2 : ltChars b.1.data a.1.data = true
      · right
        exact Or.inl h2
      · simp [Bool.not_eq_true] at h1 h2
        rcases strLeP_total.total a.2 b.2 with h3 | h3
        · left
          exact Or.inr ⟨h1, h2, h3⟩
        · right
          exact Or.inr ⟨h2, h1, h3⟩

instance pairLeP_trans : IsTrans (String × String) pairLeP where
  trans a b c hab hbc := by
    simp only [pairLeP] at hab hbc ⊢
    rw [pairLeB_true_iff] at hab hbc ⊢
    rcases hab with hab | ⟨hab1, hab2, hab3⟩
    · rcases hbc with hbc | ⟨hbc1, hbc2, hbc3⟩
      · exact Or.inl (ltChars_trans _ _ _ hab hbc)
      · have heq : c.1.data = b.1.data := ltChars_connex _ _ hbc2 hbc1
        rw [← heq] at hab
        exact Or.inl hab
    · have heq : b.1.data = a.1.data := ltChars_connex _ _ hab2 hab1
      rw [heq] at hbc
      rcases hbc with hbc | ⟨hbc1, hbc2, hbc3⟩
      · exact Or.inl hbc
      · exact Or.inr ⟨hbc1, hbc2, strLeP_trans.trans a.2 b.2 c.2 hab3 hbc3⟩

/-- Replacing the value at a present key makes the lookup of that key return
the new value. -/
theorem assocGet_assocSet_self {α : Type} :
    ∀ (l : List (String × α)) (k : String) (v w : α),
      assocGet l k = some w → assocGet (assocSet l k v) k = some v := by
  intro l
  induction l with
  | nil =>
    intro k v w h
    simp [assocGet] at h
  | cons p rest ih =>
    intro k v w h
    obtain ⟨pk, pv⟩ := p
    by_cases hk : pk = k
    · simp [assocGet, assocSet, hk]
    · simp only [assocGet, assocSet, if_neg hk] at h ⊢
      exact ih k v w h

/-- A key that is not among the keys of an association list looks up to none. -/
theorem assocGet_eq_none_of_not_mem {α : Type} :
    ∀ (l : List (String × α)) (c : String), c ∉ l.map Prod.fst → assocGet l c = none := by
  intro l
  induction l with
  | nil =>
    intro c _
    rfl
  | cons p rest ih =>
    intro c h
    obtain ⟨pk, pv⟩ := p
    simp only [List.map_cons, List.mem_cons, not_or] at h
    have hne : ¬ pk = c := fun he => h.1 he.symm
    simp only [assocGet, if_neg hne]
    exact ih c h.2

/-- The group keys produced by groupbySum come out sorted by the group-key
order (pandas groupby with the default sort=True). -/
theorem groupbySum_keys_sorted {α : Type} (eqb : α → α → Bool) (leP : α → α → Prop)
    [DecidableRel leP] [IsTotal α leP] [IsTrans α leP] (rows : List (α × Nat)) :
    List.Sorted leP ((groupbySum eqb leP rows).map Prod.fst) := by
  have h := List.sorted_insertionSort leP (keysFirstOcc eqb [] (rows.map Prod.fst))
  have heq : (groupbySum eqb leP rows).map Prod.fst =
      List.insertionSort leP (keysFirstOcc eqb [] (rows.map Prod.fst)) := by
    simp [groupbySum, List.map_map, Function.comp_def]
  rw [heq]
  exact h

/-- The five field lookups of a freshly built entry dict. -/
theorem entryToJson_fields (e : Entry) :
    (entryToJson e).get "date" = some (.str e.date) ∧
    (entryToJson e).get "category" = some (.str e.category) ∧
    (entryToJson e).get "metric" = some (.num (e.metric : Int)) ∧
    (entryToJson e).get "reflection" = some (.str e.reflection) ∧
    (entryToJson e).get "bible_verse" = some (.str e.bible_verse) :=
  ⟨rfl, rfl, rfl, rfl, rfl⟩

/-- Appending a list of entries to a store whose tracking document is an
entries object extends the stored entry array in order, leaving the config
cookie untouched. -/
theorem appendAll_entries (entries : List Entry) :
    ∀ (l : List Json) (cfg : Option CookieVal),
      appendAll { tracking := some (.valid (.obj [("entries", .arr l)])), config := cfg } entries =
        .ok { tracking := some (.valid (.obj [("entries", .arr (l ++ entries.map entryToJson))])),
              config := cfg } := by
  induction entries with
  | nil =>
    intro l cfg
    simp [appendAll]
  | cons e es ih =>
    intro l cfg
    have h3 : appendAll
        { tracking := some (.valid (.obj [("entries", .arr l)])), config := cfg } (e :: es) =
        appendAll { tracking := some (.valid (.obj [("entries", .arr (l ++ [entryToJson e]))])),
                    config := cfg } es := rfl
    rw [h3, ih (l ++ [entryToJson e]) cfg]
    simp

/-- C1: for every entry e and every prior stored entry list, append(e)
followed by loadAll() yields a sequence whose last element equals e in all
five fields (date, category, metric, reflection, bible_verse), with the
denormalized bible_verse preserved exactly through the serialize/deserialize
round-trip of the tracking document. -/
theorem C1_append_loadAll_roundtrip (s s2 : Store) (e : Entry)
    (h : append_entry s e = .ok s2) :
    ∃ old : List Json,
      load_entries s2 = .ok (.arr (old ++ [entryToJson e])) ∧
      (old ++ [entryToJson e]).getLast? = some (entryToJson e) ∧
      (entryToJson e).get "date" = some (.str e.date) ∧
      (entryToJson e).get "category" = some (.str e.category) ∧
      (entryToJson e).get "metric" = some (.num (e.metric : Int)) ∧
      (entryToJson e).get "reflection" = some (.str e.reflection) ∧
      (entryToJson e).get "bible_verse" = some (.str e.bible_verse) := by
  cases hld : load_data s with
  | error err => simp [append_entry, hld] at h
  | ok data =>
    cases data with
    | str v => simp [append_entry, hld] at h
    | num v => simp [append_entry, hld] at h
    | bool v => simp [append_entry, hld] at h
    | arr v => simp [append_entry, hld] at h
    | obj fields =>
      cases hg : assocGet fields "entries" with
      | none => simp [append_entry, hld, hg] at h
      | some v =>
        cases v with
        | str w => simp [append_entry, hld, hg] at h
        | num w => simp [append_entry, hld, hg] at h
        | bool w => simp [append_entry, hld, hg] at h
        | obj w => simp [append_entry, hld, hg] at h
        | arr entries =>
          simp only [append_entry, hld, hg, Except.ok.injEq] at h
          subst h
          refine ⟨entries, ?_, List.getLast?_concat _, (entryToJson_fields e).1,
            (entryToJson_fields e).2.1, (entryToJson_fields e).2.2.1,
            (entryToJson_fields e).2.2.2.1, (entryToJson_fields e).2.2.2.2⟩
          simp only [load_entries, save_data, load_data, Except.map, get_entries, Json.get]
          rw [assocGet_assocSet_self fields "entries" _ _ hg]
          rfl

/-- C1 witness: the round-trip theorem applied to a concrete store and entry. -/
theorem C1_witness :
    ∃ old : List Json,
      load_entries store1 = .ok (.arr (old ++ [entryToJson entry0])) ∧
      (old ++ [entryToJson entry0]).getLast? = some (entryToJson entry0) ∧
      (entryToJson entry0).get "date" = some (.str entry0.date) ∧
      (entryToJson entry0).get "category" = some (.str entry0.category) ∧
      (entryToJson entry0).get "metric" = some (.num (entry0.metric : Int)) ∧
      (entryToJson entry0).get "reflection" = some (.str entry0.reflection) ∧
      (entryToJson entry0).get "bible_verse" = some (.str entry0.bible_verse) :=
  C1_append_loadAll_roundtrip store0 store1 entry0 rfl

/-- C2: the aggregation example of the specification: the three entries
aggregated Monthly with filter "All" yield exactly the groups (2024-01, A, 5)
and (2024-02, B, 4), and with filter A exactly (2024-01, 5). -/
theorem C2_aggregation_example :
    aggregate_all [entA1, entA2, entB1] .monthly =
      .ok (some [(("2024-01", "A"), 5), (("2024-02", "B"), 4)]) ∧
    aggregate_filtered [entA1, entA2, entB1] .monthly "A" =
      .ok (some [("2024-01", 5)]) :=
  ⟨rfl, rfl⟩

/-- C3 counterexample: for entries whose periods first occur as 2024-02 then
2024-01, the aggregation output is in ascending key order (2024-01 before
2024-02), not the first-occurrence order the claim asserts it preserves. -/
theorem C3_counterexample :
    aggregate_all [entFeb, entJan] .monthly =
      .ok (some [(("2024-01", "A"), 2), (("2024-02", "A"), 1)]) ∧
    periodsFirstOcc [entFeb, entJan] .monthly = .ok ["2024-02", "2024-01"] ∧
    [(("2024-01", "A"), 2), (("2024-02", "A"), 1)].map (fun r => r.1.1) ≠
      ["2024-02", "2024-01"] :=
  ⟨rfl, rfl, by decide⟩

/-- C3 amended: the aggregation result is ordered by ascending group key -
lexicographically by period, and by category within a period when
unfiltered - the order produced by the grouping operation (pandas groupby
with its default sort=True), not by first occurrence of each period. -/
theorem C3_amended_sorted_output (entries : List Entry) (g : Granularity)
    (c : String) (rows : List ((String × String) × Nat)) (rows2 : List (String × Nat))
    (h1 : aggregate_all entries g = .ok (some rows))
    (h2 : aggregate_filtered entries g c = .ok (some rows2)) :
    List.Sorted pairLeP (rows.map Prod.fst) ∧ List.Sorted strLeP (rows2.map Prod.fst) := by
  constructor
  · cases entries with
    | nil => simp [aggregate_all] at h1
    | cons e es =>
      cases hpr : periodRows g (e :: es) with
      | error err => simp [aggregate_all, hpr] at h1
      | ok prows =>
        simp only [aggregate_all, hpr, Except.ok.injEq, Option.some.injEq] at h1
        rw [← h1]
        exact groupbySum_keys_sorted _ _ _
  · cases entries with
    | nil => simp [aggregate_filtered] at h2
    | cons e es =>
      cases hpr : periodRows g (e :: es) with
      | error err => simp [aggregate_filtered, hpr] at h2
      | ok prows =>
        cases hf : prows.filter (fun r => r.2.1 == c) with
        | nil => simp [aggregate_filtered, hpr, hf] at h2
        | cons r rs =>
          simp only [aggregate_filtered, hpr, hf, Except.ok.injEq, Option.some.injEq] at h2
          rw [← h2]
          exact groupbySum_keys_sorted _ _ _

/-- C3 amended witness: the sortedness theorem applied to a concrete run. -/
theorem C3_amended_witness :
    List.Sorted pairLeP (([(("2024-01", "A"), 5), (("2024-02", "B"), 4)] :
        List ((String × String) × Nat)).map Prod.fst) ∧
    List.Sorted strLeP (([("2024-01", 5)] : List (String × Nat)).map Prod.fst) :=
  C3_amended_sorted_output [entA1, entA2, entB1] .monthly "A"
    [(("2024-01", "A"), 5), (("2024-02", "B"), 4)] [("2024-01", 5)] rfl rfl

/-- C4 counterexample: the category lookup of src/app.py line 128 is
BIBLE_VERSES.get(category, ""): applied to an input outside the seven
categories it returns the empty-string default - a value, not a NotFound
failure. -/
theorem C4_counterexample :
    bible_verse_of "NotACategory" = "" ∧ "NotACategory" ∉ CATEGORIES := by
  constructor
  · rfl
  · decide

/-- C4 amended: the lookup returns the associated scripture reference for
each of the seven fixed category identifiers; for every other input the
.get default makes it return the empty string rather than failing. -/
theorem C4_amended_lookup (c : String) :
    (c ∈ CATEGORIES → assocGet BIBLE_VERSES c = some (bible_verse_of c)) ∧
    (c ∉ CATEGORIES → bible_verse_of c = "") := by
  constructor
  · intro hc
    fin_cases hc <;> rfl
  · intro hc
    have h := assocGet_eq_none_of_not_mem BIBLE_VERSES c hc
    simp [bible_verse_of, h]

/-- C4 amended witness: the lookup at one known and one unknown input. -/
theorem C4_witness :
    assocGet BIBLE_VERSES "Love & Service" = some (bible_verse_of "Love & Service") ∧
    bible_verse_of "Unknown" = "" :=
  ⟨(C4_amended_lookup "Love & Service").1 (by decide),
   (C4_amended_lookup "Unknown").2 (by decide)⟩

/-- C5 counterexample: with a malformed persisted configuration, load_config
returns the parse error and not the fallback configuration: there is no
in-session fallback to the hardcoded default and no caller catches the
exception, so the page crashes. -/
theorem C5_counterexample :
    load_config mStore = .error .parseError ∧
    load_config mStore ≠ .ok fallback_config := by
  refine ⟨rfl, ?_⟩
  intro h
  simp [load_config, mStore] at h

/-- C5 amended: a malformed persisted configuration document makes
load_config fail with the parse error, which propagates uncaught; no warning
is surfaced and no in-memory fallback to the hardcoded default occurs. The
only warning-and-fallback path in the program is in init_data_cookies, for a
failing config.json read while the config cookie is absent. -/
theorem C5_amended_parse_error (s : Store) (h : s.config = some .malformed) :
    load_config s = .error .parseError := by
  simp [load_config, h]

/-- C5 amended witness. -/
theorem C5_witness : load_config mStore = .error .parseError :=
  C5_amended_parse_error mStore rfl

/-- C6: when no prior tracking data exists in the backing store, loading the
entry list yields the empty sequence, not an error and not a missing-data
failure. -/
theorem C6_no_data_empty_list (s : Store) (h : s.tracking = none) :
    load_entries s = .ok (.arr []) := by
  simp [load_entries, load_data, h, Except.map, get_entries, Json.get, assocGet]

/-- C6 witness. -/
theorem C6_witness :
    load_entries { tracking := none, config := none } = .ok (.arr []) :=
  C6_no_data_empty_list { tracking := none, config := none } rfl

/-- C7: on a first run - config cookie absent and config.json unavailable, so
no prior persisted configuration exists anywhere - init_data_cookies
materializes and persists the hardcoded default, which carries a non-empty
goal for all seven categories, enable_notifications = true and
daily_reminder_time = 08:00. -/
theorem C7_first_run_defaults (s : Store) (h : s.config = none) :
    (init_data_cookies (.error ()) s).config = some (.valid fallback_config) ∧
    CATEGORIES.all (goal_nonempty fallback_config) = true ∧
    notif_setting fallback_config "enable_notifications" = some (.bool true) ∧
    notif_setting fallback_config "daily_reminder_time" = some (.str "08:00") := by
  refine ⟨?_, rfl, rfl, rfl⟩
  cases htr : s.tracking with
  | none => simp [init_data_cookies, htr, h]
  | some v => simp [init_data_cookies, htr, h]

/-- C7 witness. -/
theorem C7_witness :
    (init_data_cookies (.error ()) { tracking := none, config := none }).config =
      some (.valid fallback_config) ∧
    CATEGORIES.all (goal_nonempty fallback_config) = true ∧
    notif_setting fallback_config "enable_notifications" = some (.bool true) ∧
    notif_setting fallback_config "daily_reminder_time" = some (.str "08:00") :=
  C7_first_run_defaults { tracking := none, config := none } rfl

/-- C8: loadAll returns entries in append order (oldest-appended first), not
date order; and the Dashboard sort-by-date-descending over the loadAll result
of entries dated 2024-01-10, 2024-03-05, 2024-01-20 (appended in that order)
yields 2024-03-05, 2024-01-20, 2024-01-10. -/
theorem C8_append_order_then_sort :
    (∀ (entries : List Entry) (cfg : Option CookieVal),
      appendAll { tracking := some (.valid (.obj [("entries", .arr [])])), config := cfg }
          entries =
        .ok { tracking := some (.valid (.obj [("entries", .arr (entries.map entryToJson))])),
              config := cfg }) ∧
    (∀ (entries : List Entry) (cfg : Option CookieVal),
      load_entries
          { tracking := some (.valid (.obj [("entries", .arr (entries.map entryToJson))])),
            config := cfg } = .ok (.arr (entries.map entryToJson))) ∧
    appendAll { tracking := some (.valid (.obj [("entries", .arr [])])), config := none }
        [ent110, ent305, ent120] =
      .ok { tracking := some (.valid (.obj [("entries",
              .arr [entryToJson ent110, entryToJson ent305, entryToJson ent120])])),
            config := none } ∧
    sort_entries_desc [entryToJson ent110, entryToJson ent305, entryToJson ent120] =
      .ok [entryToJson ent305, entryToJson ent120, entryToJson ent110] := by
  refine ⟨?_, ?_, rfl, rfl⟩
  · intro entries cfg
    simpa using appendAll_entries entries [] cfg
  · intro entries cfg
    rfl

/-- C9: calling load_config twice in succession with no intervening save
yields identical results, and the second call leaves the persisted
configuration document exactly as it was. -/
theorem C9_load_config_idempotent (s : Store) (c : Json) (s1 : Store)
    (h : load_config_st s = .ok (c, s1)) :
    load_config_st s1 = .ok (c, s1) ∧ s1 = s := by
  cases hc : s.config with
  | none =>
    simp only [load_config_st, load_config, hc, Except.map, Except.ok.injEq,
      Prod.mk.injEq] at h
    obtain ⟨h1, h2⟩ := h
    subst h1
    subst h2
    exact ⟨by simp [load_config_st, load_config, hc, Except.map], rfl⟩
  | some v =>
    cases v with
    | malformed =>
      simp [load_config_st, load_config, hc, Except.map] at h
    | valid j =>
      simp only [load_config_st, load_config, hc, Except.map, Except.ok.injEq,
        Prod.mk.injEq] at h
      obtain ⟨h1, h2⟩ := h
      subst h1
      subst h2
      exact ⟨by simp [load_config_st, load_config, hc, Except.map], rfl⟩

/-- C9 witness. -/
theorem C9_witness :
    load_config_st { tracking := none, config := some (.valid fallback_config) } =
      .ok (fallback_config, { tracking := none, config := some (.valid fallback_config) }) ∧
    ({ tracking := none, config := some (.valid fallback_config) } : Store) =
      { tracking := none, config := some (.valid fallback_config) } :=
  C9_load_config_idempotent
    { tracking := none, config := some (.valid fallback_config) } fallback_config
    { tracking := none, config := some (.valid fallback_config) } rfl

/-- C10: every entry the Log Entry form can append has its category in the
fixed seven-element catalog, its bible_verse equal to the catalog verse for
that category at creation time, and a non-negative integer metric. -/
theorem C10_form_entry_invariant (i : Fin CATEGORIES.length) (d : String) (v : Nat)
    (r : String) :
    (mk_new_entry i d v r).category ∈ CATEGORIES ∧
    assocGet BIBLE_VERSES (mk_new_entry i d v r).category =
      some (mk_new_entry i d v r).bible_verse ∧
    (0 : Int) ≤ ((mk_new_entry i d v r).metric : Int) := by
  refine ⟨List.get_mem CATEGORIES i.1 i.2, ?_, Int.natCast_nonneg _⟩
  have hall : ∀ j : Fin CATEGORIES.length,
      assocGet BIBLE_VERSES (CATEGORIES.get j) = some (bible_verse_of (CATEGORIES.get j)) := by
    decide
  exact hall i
